import Mathlib

/-!
# IdentityForge — verification of the specification against the code

Shallow embedding of the IdentityForge anti-detect browser manager
(React/TypeScript frontend under `src/identityforge/src`, with the Rust
backend modelled from the specification where it is not part of the
sources).  Definitions are translated from the source files named in the
doc comments; theorems settle the specification claims.
-/

namespace IdentityForge

/-! ## JavaScript string / number semantics used by the frontend -/

/-- Strip leading and trailing whitespace from a character list. -/
def charsTrim (cs : List Char) : List Char :=
  ((cs.dropWhile Char.isWhitespace).reverse.dropWhile Char.isWhitespace).reverse

/-- JavaScript `s.trim()`. -/
def jsTrim (s : String) : String :=
  String.mk (charsTrim s.data)

/-- Whether `pat` is a prefix of `s` (character lists). -/
def charsHasPrefix : List Char → List Char → Bool
  | [], _ => true
  | _ :: _, [] => false
  | p :: ps, c :: cs => p = c && charsHasPrefix ps cs

/-- Whether `pat` occurs as a contiguous run inside `s`. -/
def charsOccurs (pat : List Char) : List Char → Bool
  | [] => charsHasPrefix pat []
  | c :: cs => charsHasPrefix pat (c :: cs) || charsOccurs pat cs

/-- The longest leading run of decimal digits of a character list. -/
def leadingDigits (cs : List Char) : List Char :=
  cs.takeWhile (fun c => c.isDigit)

/-- Decimal value of a digit list. -/
def digitsToNat (cs : List Char) : Nat :=
  cs.foldl (fun a c => a * 10 + (c.toNat - 48)) 0

/-- JavaScript `parseInt(s)` restricted to base-10 inputs: skips leading
whitespace, reads an optional sign and the longest digit run; `none`
models `NaN` (no digits found). -/
def jsParseInt (s : String) : Option Int :=
  match (jsTrim s).toList with
  | [] => none
  | c :: rest =>
    if c = '-' then
      let ds := leadingDigits rest
      if ds.isEmpty then none else some (-(digitsToNat ds : Int))
    else
      let ds := leadingDigits (c :: rest)
      if ds.isEmpty then none else some ((digitsToNat ds : Int))

/-- JavaScript `parseInt(s) || 0` as used at
`CreateProfileModal.handleCreate` and `BulkCreateModal.handleCreate`:
`NaN` and `0` are falsy, so both collapse to `0`. -/
def jsParseIntOr0 (s : String) : Int :=
  match jsParseInt s with
  | none => 0
  | some n => n

/-- JavaScript `s || undefined` on a string: the empty string is falsy. -/
def strOrNone (s : String) : Option String :=
  if s = "" then none else some s

/-! ## Data model (`src/identityforge/src/types/profile.ts`) -/

/-- `ProxyConfig` from `types/profile.ts` lines 1-8; every field is
optional in the TypeScript interface. -/
structure ProxyConfig where
  enabled : Option Bool
  proxy_type : Option String
  host : Option String
  port : Option Int
  username : Option String
  password : Option String
deriving Repr, DecidableEq

/-- `CreateProfileInput` from `types/profile.ts` lines 65-70. -/
structure CreateProfileInput where
  name : String
  platform : Option String
  default_url : Option String
  proxy : Option ProxyConfig
deriving Repr, DecidableEq

/-! ## CreateProfileModal (`src/unnamed/part_000`, lines 11-95) -/

/-- The React state of `CreateProfileModal` relevant to `handleCreate`:
`name`, `platform`, `defaultUrl` and the proxy fields, all text except
the `proxyEnabled` toggle. -/
structure CreateModalState where
  name : String
  platform : String
  defaultUrl : String
  proxyEnabled : Bool
  proxyType : String
  proxyHost : String
  proxyPort : String
  proxyUsername : String
  proxyPassword : String
deriving Repr, DecidableEq

/-- The `ProxyConfig` literal built inside both `handleCreate` bodies
(`part_000` lines 53-60, `BulkCreateModal.tsx` lines 47-54): host is
trimmed, the port field goes through `parseInt(...) || 0`, and blank
credentials become `undefined`. -/
def builtProxy (ptype host portField user pass : String) : ProxyConfig :=
  { enabled := some true
    proxy_type := some ptype
    host := some (jsTrim host)
    port := some (jsParseIntOr0 portField)
    username := strOrNone (jsTrim user)
    password := strOrNone (jsTrim pass) }

/-- The proxy the modals attach to the request: present exactly when the
proxy toggle is on (ternary at `part_000` line 53 / `BulkCreateModal.tsx`
line 47). -/
def proxyIfEnabled (enabled : Bool) (ptype host portField user pass : String) :
    Option ProxyConfig :=
  if enabled then some (builtProxy ptype host portField user pass) else none

/-- `CreateProfileModal.handleCreate` (`part_000` lines 39-79) as the
request it submits: `none` when validation rejects locally (blank name,
or proxy enabled with blank host/port field), otherwise the
`CreateProfileInput` passed to `createProfile`. -/
def createHandleCreate (st : CreateModalState) : Option CreateProfileInput :=
  if jsTrim st.name = "" then none
  else if st.proxyEnabled ∧ (jsTrim st.proxyHost = "" ∨ jsTrim st.proxyPort = "") then none
  else some
    { name := jsTrim st.name
      platform := strOrNone st.platform
      default_url := strOrNone (jsTrim st.defaultUrl)
      proxy := proxyIfEnabled st.proxyEnabled st.proxyType st.proxyHost st.proxyPort
        st.proxyUsername st.proxyPassword }

/-! ## BulkCreateModal (`src/identityforge/src/components/BulkCreateModal.tsx`) -/

/-- The React state of `BulkCreateModal` relevant to `handleCreate`.
`pfx` embeds the `namePrefix` state variable. -/
structure BulkModalState where
  count : Int
  pfx : String
  platform : String
  defaultUrl : String
  proxyEnabled : Bool
  proxyType : String
  proxyHost : String
  proxyPort : String
  proxyUsername : String
  proxyPassword : String
deriving Repr, DecidableEq

/-- The argument tuple of the `bulkCreateProfiles` call
(`useApi.ts` lines 48-56). `pfx` embeds the `namePrefix` argument. -/
structure BulkCreateArgs where
  count : Int
  pfx : String
  platform : Option String
  defaultUrl : Option String
  proxy : Option ProxyConfig
deriving Repr, DecidableEq

/-- `BulkCreateModal.handleCreate` (lines 29-79) as the request it
submits: `none` when validation rejects locally (count outside `[1,100]`,
blank name prefix, or proxy enabled with blank host/port field),
otherwise the arguments passed to `bulkCreateProfiles`. -/
def bulkHandleCreate (st : BulkModalState) : Option BulkCreateArgs :=
  if st.count < 1 ∨ st.count > 100 then none
  else if jsTrim st.pfx = "" then none
  else if st.proxyEnabled ∧ (jsTrim st.proxyHost = "" ∨ jsTrim st.proxyPort = "") then none
  else some
    { count := st.count
      pfx := jsTrim st.pfx
      platform := strOrNone st.platform
      defaultUrl := strOrNone (jsTrim st.defaultUrl)
      proxy := proxyIfEnabled st.proxyEnabled st.proxyType st.proxyHost st.proxyPort
        st.proxyUsername st.proxyPassword }

/-! ## Profile and edit path (`types/profile.ts`, `src/unnamed/part_000` lines 312-574) -/

/-- `Profile` from `types/profile.ts` lines 10-33 (fields read by
`EditProfileModal`; the timestamps and proxy columns are carried along
verbatim). -/
structure Profile where
  id : String
  name : String
  user_agent : String
  screen_width : Int
  screen_height : Int
  webgl_vendor : String
  webgl_renderer : String
  hardware_concurrency : Int
  device_memory : Int
  platform : String
  timezone : String
  language : String
  default_url : String
  proxy_enabled : Bool
  proxy_type : String
  proxy_host : String
  proxy_port : Int
  proxy_username : Option String
  proxy_password : Option String
  created_at : String
  last_used : Option String
deriving Repr, DecidableEq

/-- `UpdateProfileInput` from `types/profile.ts` lines 72-87: every
field but `id` is optional. -/
structure UpdateProfileInput where
  id : String
  name : Option String
  user_agent : Option String
  screen_width : Option Int
  screen_height : Option Int
  webgl_vendor : Option String
  webgl_renderer : Option String
  hardware_concurrency : Option Int
  device_memory : Option Int
  platform : Option String
  timezone : Option String
  language : Option String
  default_url : Option String
  proxy : Option ProxyConfig
deriving Repr, DecidableEq

/-- The `useEffect` in `EditProfileModal` (`part_000` lines 339-356):
when a profile is selected the form data is populated with every
fingerprint field of the profile (`default_url` and `proxy` are not part
of the form and stay unset). -/
def initFormData (p : Profile) : UpdateProfileInput :=
  { id := p.id
    name := some p.name
    user_agent := some p.user_agent
    screen_width := some p.screen_width
    screen_height := some p.screen_height
    webgl_vendor := some p.webgl_vendor
    webgl_renderer := some p.webgl_renderer
    hardware_concurrency := some p.hardware_concurrency
    device_memory := some p.device_memory
    platform := some p.platform
    timezone := some p.timezone
    language := some p.language
    default_url := none
    proxy := none }

/-- One keystroke-level form edit: the field names accepted by
`EditProfileModal.handleChange` (`part_000` lines 358-360), each
carrying the new value. -/
inductive EditField where
  | name (v : String)
  | user_agent (v : String)
  | screen_width (v : Int)
  | screen_height (v : Int)
  | webgl_vendor (v : String)
  | webgl_renderer (v : String)
  | hardware_concurrency (v : Int)
  | device_memory (v : Int)
  | platform (v : String)
  | timezone (v : String)
  | language (v : String)
deriving Repr, DecidableEq

/-- `handleChange(field, value)` (`part_000` lines 358-360):
`setFormData(prev => (..., [field]: value))` — one field is overwritten,
all others kept. -/
def applyEdit (f : UpdateProfileInput) : EditField → UpdateProfileInput
  | .name v => { f with name := some v }
  | .user_agent v => { f with user_agent := some v }
  | .screen_width v => { f with screen_width := some v }
  | .screen_height v => { f with screen_height := some v }
  | .webgl_vendor v => { f with webgl_vendor := some v }
  | .webgl_renderer v => { f with webgl_renderer := some v }
  | .hardware_concurrency v => { f with hardware_concurrency := some v }
  | .device_memory v => { f with device_memory := some v }
  | .platform v => { f with platform := some v }
  | .timezone v => { f with timezone := some v }
  | .language v => { f with language := some v }

/-- A sequence of form edits applied in order. -/
def applyEdits (f : UpdateProfileInput) (es : List EditField) : UpdateProfileInput :=
  es.foldl applyEdit f

/-- `EditProfileModal.handleSubmit` (`part_000` lines 362-382): the only
local validation is `!formData.name?.trim()`; when it passes, the whole
form data is submitted to `updateProfile`. -/
def editHandleSubmit (f : UpdateProfileInput) : Option UpdateProfileInput :=
  match f.name with
  | none => none
  | some n => if jsTrim n = "" then none else some f

/-- `true` when `pat` occurs as a substring of `s` (JavaScript
`s.includes(pat)`). -/
def containsStr (s pat : String) : Bool :=
  charsOccurs pat.data s.data

/-- The platform family encoded by a `navigator.platform`-style string,
following the tokens the frontend itself matches on
(`ProfileCard.getPlatformIcon`, lines 200-205: `Win`, `Mac`, `Linux`). -/
def familyOfPlatformString (p : String) : Option String :=
  if containsStr p "Win" then some "windows"
  else if containsStr p "Mac" then some "mac"
  else if containsStr p "Linux" then some "linux"
  else none

/-- The platform family a user-agent string encodes, by its OS token
(`Windows`, `Macintosh`, `Linux`). -/
def familyOfUserAgent (ua : String) : Option String :=
  if containsStr ua "Windows" then some "windows"
  else if containsStr ua "Macintosh" then some "mac"
  else if containsStr ua "Linux" then some "linux"
  else none

/-- Modelled from the spec: §3 requires `user_agent` and the platform
string to encode the same `platform_family`, and the WebGL vendor to be
plausible for it (Apple GPU strings only with macOS).  The repository
has no validation code for this, so the predicate follows the spec
wording; it is the consistency the claim asserts of accepted edits. -/
def consistentUpdateB (f : UpdateProfileInput) : Bool :=
  match f.user_agent, f.platform with
  | some ua, some p =>
    match familyOfUserAgent ua, familyOfPlatformString p with
    | some fam1, some fam2 =>
      fam1 == fam2 &&
      (match f.webgl_vendor with
       | none => true
       | some v => containsStr v "Apple" == (fam1 == "mac"))
    | _, _ => false
  | _, _ => false

/-- Every field of the edit form is present in the update (the form
populates all of them and `handleChange` only overwrites): the submitted
update replaces the whole tuple rather than sending a partial patch. -/
def formComplete (f : UpdateProfileInput) : Bool :=
  f.name.isSome && f.user_agent.isSome && f.screen_width.isSome &&
  f.screen_height.isSome && f.webgl_vendor.isSome && f.webgl_renderer.isSome &&
  f.hardware_concurrency.isSome && f.device_memory.isSome && f.platform.isSome &&
  f.timezone.isSome && f.language.isSome

/-! ## Backend core, modelled from the spec

The Rust backend (`src-tauri/src/fingerprint.rs`, `launcher.rs`,
`commands.rs`, `database.rs` in the README's project layout) is not part
of the sources; only its TypeScript callers are.  The definitions below
are therefore modelled from the specification (§3, §4.1, §4.2, §4.4,
§6, §7). -/

/-- Modelled from the spec: §7 error taxonomy of the missing Rust
backend. -/
inductive ApiError where
  | InvalidPlatformConstraint
  | UnsupportedOverrideTarget
  | AlreadyActive
  | NotActive
  | SessionActiveConflict
  | StorageUnavailable
  | WindowCreationFailed
deriving Repr, DecidableEq

/-- The Fingerprint value object: the signal tuple of §3 / the
generated fields of `types/profile.ts` `Fingerprint`. -/
structure Fingerprint where
  user_agent : String
  platform : String
  screen_width : Int
  screen_height : Int
  webgl_vendor : String
  webgl_renderer : String
  hardware_concurrency : Int
  device_memory : Int
  timezone : String
  language : String
deriving Repr, DecidableEq

/-- Modelled from the spec: the supported platform constraint set
(§4.1); the frontend select options are exactly `windows`, `mac`,
`linux` (`part_000` lines 152-156). -/
def platformPool : List String := ["windows", "mac", "linux"]

/-- Modelled from the spec: per-platform user-agent candidate table
(§4.1 constrained draw; missing `fingerprint.rs`). -/
def uaPool : String → List String
  | "windows" =>
    ["Mozilla/5.0 (Windows NT 10.0; Win64; x64) AppleWebKit/537.36 (KHTML, like Gecko) Chrome/121.0.0.0 Safari/537.36",
     "Mozilla/5.0 (Windows NT 10.0; Win64; x64; rv:122.0) Gecko/20100101 Firefox/122.0"]
  | "mac" =>
    ["Mozilla/5.0 (Macintosh; Intel Mac OS X 10_15_7) AppleWebKit/537.36 (KHTML, like Gecko) Chrome/121.0.0.0 Safari/537.36",
     "Mozilla/5.0 (Macintosh; Intel Mac OS X 10_15_7) AppleWebKit/605.1.15 (KHTML, like Gecko) Version/17.2 Safari/605.1.15"]
  | "linux" =>
    ["Mozilla/5.0 (X11; Linux x86_64) AppleWebKit/537.36 (KHTML, like Gecko) Chrome/121.0.0.0 Safari/537.36",
     "Mozilla/5.0 (X11; Linux x86_64; rv:122.0) Gecko/20100101 Firefox/122.0"]
  | _ => []

/-- Modelled from the spec: the `navigator.platform` string for a
platform family. -/
def platformStringFor : String → String
  | "windows" => "Win32"
  | "mac" => "MacIntel"
  | _ => "Linux x86_64"

/-- Modelled from the spec: per-platform GPU vendor/renderer pairs
(§4.1; Apple GPU strings only tagged `mac`). -/
def gpuPool : String → List (String × String)
  | "windows" =>
    [("Google Inc. (NVIDIA)", "ANGLE (NVIDIA, NVIDIA GeForce RTX 3060 Direct3D11)"),
     ("Google Inc. (Intel)", "ANGLE (Intel, Intel(R) UHD Graphics 630 Direct3D11)")]
  | "mac" =>
    [("Apple Inc.", "Apple M1"),
     ("Apple Inc.", "Apple M2")]
  | "linux" =>
    [("Intel", "Mesa Intel(R) UHD Graphics 620"),
     ("NVIDIA Corporation", "NVIDIA GeForce GTX 1650/PCIe/SSE2")]
  | _ => []

/-- Modelled from the spec: the fixed pool of common screen resolutions
(§4.1, not platform-constrained). -/
def resolutionPool : List (Int × Int) :=
  [(1920, 1080), (1366, 768), (2560, 1440), (1280, 720), (3840, 2160)]

/-- CPU core candidates; this discrete set appears verbatim in the edit
form (`part_000` line 462) and in spec §4.1. -/
def coresPool : List Int := [2, 4, 6, 8, 10, 12, 16, 24, 32]

/-- Device memory candidates; this discrete set appears verbatim in the
edit form (`part_000` line 476) and in spec §4.1. -/
def memoryPool : List Int := [2, 4, 8, 16, 32, 64]

/-- Modelled from the spec: locale pool for timezone draws (§4.1). -/
def timezonePool : List String :=
  ["America/New_York", "America/Chicago", "Europe/London", "Europe/Berlin", "Asia/Tokyo"]

/-- Modelled from the spec: locale pool for language draws (§4.1). -/
def languagePool : List String :=
  ["en-US", "en-GB", "de-DE", "fr-FR", "ja-JP"]

/-- Modelled from the spec: the injected randomness of one generation —
one draw index per field plus the raw bits of the 128-bit noise seed
(§4.1). -/
structure Rng where
  platformPick : Nat
  uaPick : Nat
  gpuPick : Nat
  resPick : Nat
  coresPick : Nat
  memPick : Nat
  tzPick : Nat
  langPick : Nat
  seedBits : Nat
deriving Repr, DecidableEq

/-- A constrained draw: index into a candidate list modulo its length. -/
def pickL {α : Type} (l : List α) (d : α) (n : Nat) : α :=
  l.getD (n % l.length) d

/-- Modelled from the spec: the body of the generator once the platform
family is fixed — every platform-tagged field is drawn from the table
for that family, the shared fields from the shared pools, and the noise
seed from the 128 raw seed bits (§4.1). -/
def genFor (fam : String) (r : Rng) : Fingerprint × Nat :=
  let gpu := pickL (gpuPool fam) ("", "") r.gpuPick
  let res := pickL resolutionPool (1920, 1080) r.resPick
  ({ user_agent := pickL (uaPool fam) "" r.uaPick
     platform := platformStringFor fam
     screen_width := res.1
     screen_height := res.2
     webgl_vendor := gpu.1
     webgl_renderer := gpu.2
     hardware_concurrency := pickL coresPool 4 r.coresPick
     device_memory := pickL memoryPool 8 r.memPick
     timezone := pickL timezonePool "America/New_York" r.tzPick
     language := pickL languagePool "en-US" r.langPick },
   r.seedBits % 2 ^ 128)

/-- Modelled from the spec: `generate(platform_family?, rng)` (§4.1).
A present constraint outside the supported set fails with
`InvalidPlatformConstraint`; otherwise the function is total and pure:
with no constraint the family is drawn from the pool first. -/
def generate (constraint : Option String) (r : Rng) :
    Except ApiError (Fingerprint × Nat) :=
  match constraint with
  | some c =>
    if platformPool.contains c then Except.ok (genFor c r)
    else Except.error ApiError.InvalidPlatformConstraint
  | none => Except.ok (genFor (pickL platformPool "windows" r.platformPick) r)

/-- A platform constraint is valid when absent or in the supported set
(§4.1). -/
def validConstraint : Option String → Bool
  | none => true
  | some s => platformPool.contains s

/-- Modelled from the spec: the `preview_fingerprint` command (§6,
`useApi.ts` lines 100-102) — identical generation with no persistence
side effect. -/
def preview_fingerprint (c : Option String) (r : Rng) : Except ApiError Fingerprint :=
  (generate c r).map Prod.fst

/-- The Identity record of §3: opaque id, current fingerprint and noise
seed, optional proxy, default URL. -/
structure Identity where
  id : String
  fingerprint : Fingerprint
  noise_seed : Nat
  proxy : Option ProxyConfig
  default_url : String
deriving Repr, DecidableEq

/-- The persisted profile catalog (§6 external collaborator). -/
structure Catalog where
  identities : List Identity
deriving Repr, DecidableEq

/-- Modelled from the spec: the storage partition key is derived
deterministically from the immutable identity id (§3; README:
`profiles/{id}/` directories). -/
def partitionKey (id : String) : String :=
  "profiles/" ++ id ++ "/"

/-- Modelled from the spec: the `create_profile` command (§6,
`useApi.ts` lines 22-24): generation exactly as in the preview path,
then the new identity is appended to the catalog. -/
def create_profile (inp : CreateProfileInput) (newId : String) (r : Rng)
    (cat : Catalog) : Except ApiError Identity × Catalog :=
  match generate inp.platform r with
  | Except.error e => (Except.error e, cat)
  | Except.ok (fp, seed) =>
    let idy : Identity :=
      { id := newId
        fingerprint := fp
        noise_seed := seed
        proxy := inp.proxy
        default_url := inp.default_url.getD "https://www.google.com" }
    (Except.ok idy, { identities := cat.identities ++ [idy] })

/-! ## Session manager, modelled from the spec (§4.4, §5) -/

/-- The transient Session record of §3. -/
structure Session where
  identity_id : String
  window_handle : Nat
  storage_partition_key : String
  created_at : Nat
deriving Repr, DecidableEq

/-- The session table owned by the Session Manager (§4.4); per §5 all
transitions on it are serialized, so an interleaving of concurrent
calls is a sequence of atomic operations on this table. -/
structure SessionTable where
  sessions : List Session
deriving Repr, DecidableEq

/-- Whether the table holds a live session for `id`. -/
def hasActive (tbl : SessionTable) (id : String) : Bool :=
  tbl.sessions.any (fun s => s.identity_id == id)

/-- The session record launch installs: bound to the identity and to
the partition derived from its id (§4.4). -/
def mkSession (id : String) (wh now : Nat) : Session :=
  { identity_id := id
    window_handle := wh
    storage_partition_key := partitionKey id
    created_at := now }

/-- Modelled from the spec: `launch(identity_id, start_url)` (§4.4) —
allowed only when the identity has no live session, otherwise
`AlreadyActive`; on success it binds the partition derived from the id,
navigates to `start_url` or the identity's `default_url`, and records
the session.  Returns the result together with the updated table. -/
def launch (tbl : SessionTable) (idy : Identity) (start_url : Option String)
    (wh : Nat) (now : Nat) : Except ApiError (Session × String) × SessionTable :=
  if hasActive tbl idy.id then (Except.error ApiError.AlreadyActive, tbl)
  else
    (Except.ok (mkSession idy.id wh now, start_url.getD idy.default_url),
     { sessions := mkSession idy.id wh now :: tbl.sessions })

/-- A serialized run of launch attempts for one identity (§5: transitions
for a given identity are serialized, so any concurrent set of launches
is observed as some sequence).  Each attempt carries its own optional
start URL, window handle and timestamp. -/
def launchSeq (tbl : SessionTable) (idy : Identity) :
    List (Option String × Nat × Nat) →
    SessionTable × List (Except ApiError (Session × String))
  | [] => (tbl, [])
  | (u, wh, now) :: rest =>
    let r := launch tbl idy u wh now
    let f := launchSeq r.2 idy rest
    (f.1, r.1 :: f.2)

/-- Modelled from the spec: `navigate(identity_id, url)` (§4.4) —
allowed only from Active, `NotActive` otherwise. -/
def navigate (tbl : SessionTable) (id : String) (url : String) :
    Except ApiError String × SessionTable :=
  if hasActive tbl id then (Except.ok url, tbl)
  else (Except.error ApiError.NotActive, tbl)

/-- Modelled from the spec: `close(identity_id)` (§4.4) — tears down the
session record; the storage partition is not deleted. -/
def closeSession (tbl : SessionTable) (id : String) :
    Except ApiError Unit × SessionTable :=
  if hasActive tbl id then
    (Except.ok (), { sessions := tbl.sessions.filter (fun s => !(s.identity_id == id)) })
  else (Except.error ApiError.NotActive, tbl)

/-- Modelled from the spec: `regenerate(identity_id, platform?)` (§4.4,
`useApi.ts` lines 35-41) — rejected with `SessionActiveConflict` while
a session is live; otherwise a fresh generation replaces the identity's
fingerprint and noise seed wholesale, leaving its id (and hence its
storage partition) untouched. -/
def regenerate (tbl : SessionTable) (cat : Catalog) (id : String)
    (c : Option String) (r : Rng) : Except ApiError Fingerprint × Catalog :=
  if hasActive tbl id then (Except.error ApiError.SessionActiveConflict, cat)
  else
    match generate c r with
    | Except.error e => (Except.error e, cat)
    | Except.ok (fp, seed) =>
      (Except.ok fp,
       { identities := cat.identities.map (fun i =>
           if i.id == id then { i with fingerprint := fp, noise_seed := seed } else i) })

/-- Modelled from the spec: `delete(identity_id)` (§4.4) — rejected
with `SessionActiveConflict` while a session is live; otherwise the
identity is removed from the catalog. -/
def delete_profile (tbl : SessionTable) (cat : Catalog) (id : String) :
    Except ApiError Unit × Catalog :=
  if hasActive tbl id then (Except.error ApiError.SessionActiveConflict, cat)
  else (Except.ok (), { identities := cat.identities.filter (fun i => !(i.id == id)) })

/-! ## Noise functions, modelled from the spec (§4.2, §9) -/

/-- Modelled from the spec: a non-cryptographic, well-distributed
64-bit mixing function (xorshift-multiply finalizer) used as the
deterministic hash of §4.2. -/
def mix64 (x : Nat) : Nat :=
  let a := x % 2 ^ 64
  let b := ((a ^^^ (a >>> 33)) * 18397679294719823053) % 2 ^ 64
  let c := ((b ^^^ (b >>> 29)) * 14181476777654086739) % 2 ^ 64
  (c ^^^ (c >>> 32)) % 2 ^ 64

/-- Modelled from the spec: the per-identity perturbation stride N,
derived from the seed within a bounded range (§4.2: the density of
perturbed positions varies per identity). -/
def noiseStride (seed : Nat) : Nat :=
  2 + mix64 seed % 7

/-- Modelled from the spec: perturbation of one sample — a per-position
pseudo-random delta of at most a few LSB-equivalent units, derived from
`hash(seed XOR index)` (§4.2). -/
def perturbSample (seed idx v : Nat) : Nat :=
  (v + mix64 (seed ^^^ idx) % 3) % 256

/-- Modelled from the spec: `canvas_noise(seed, pixel_buffer)` (§4.2) —
a pure function of the stored seed and the buffer: every N-th sample is
perturbed by the per-position stream, all others pass through. -/
def canvas_noise (seed : Nat) (buf : List Nat) : List Nat :=
  let n := noiseStride seed
  buf.enum.map (fun p => if p.1 % n = 0 then perturbSample seed p.1 p.2 else p.2)

/-- The ambient state of one process incarnation: a restart counter and
whatever the global RNG stream happens to hold.  §9 requires the noise
functions not to depend on any of it. -/
structure ProcessEnv where
  restart_count : Nat
  ambient_rng : Nat
deriving Repr, DecidableEq

/-- Modelled from the spec: one runtime invocation of the injected
canvas noise hook in some process incarnation — per §9 the perturbation
reads only the stored seed and the buffer, never the ambient process
state. -/
def canvas_noise_invoke (_env : ProcessEnv) (seed : Nat) (buf : List Nat) : List Nat :=
  canvas_noise seed buf

/-! ## API response envelope (`types/profile.ts` lines 59-63, §6, §7) -/

/-- `ApiResponse<T>` from `types/profile.ts` lines 59-63. -/
structure ApiResponse (T : Type) where
  success : Bool
  data : Option T
  error : Option String
deriving Repr

/-- Modelled from the spec: the error string surfaced for each §7 error
kind. -/
def errMessage : ApiError → String
  | ApiError.InvalidPlatformConstraint => "InvalidPlatformConstraint"
  | ApiError.UnsupportedOverrideTarget => "UnsupportedOverrideTarget"
  | ApiError.AlreadyActive => "AlreadyActive"
  | ApiError.NotActive => "NotActive"
  | ApiError.SessionActiveConflict => "SessionActiveConflict"
  | ApiError.StorageUnavailable => "StorageUnavailable"
  | ApiError.WindowCreationFailed => "WindowCreationFailed"

/-- Modelled from the spec: how the backend command layer wraps an
operation result into the `ApiResponse` envelope (§6: each call returns
either a success payload or one §7 error kind). -/
def toResponse {T : Type} : Except ApiError T → ApiResponse T
  | Except.ok d => { success := true, data := some d, error := none }
  | Except.error e => { success := false, data := none, error := some (errMessage e) }

/-- A response is unambiguous: success carries a payload and no error,
failure carries an error and no payload. -/
def respWellFormed {T : Type} (r : ApiResponse T) : Prop :=
  (r.success = true → r.data.isSome = true ∧ r.error = none) ∧
  (r.success = false → r.error.isSome = true ∧ r.data = none)

/-- The session invariant of §3/§8: at most one live session per
identity id — the identity ids in the table are pairwise distinct. -/
def oneSessionPerIdentity (tbl : SessionTable) : Prop :=
  (tbl.sessions.map Session.identity_id).Nodup

/-! ## Concrete inputs used by counterexamples and witnesses -/

/-- A profile whose stored tuple is Windows-consistent. -/
def pWinExample : Profile :=
  { id := "p1"
    name := "FB Ad Account 1"
    user_agent := "Mozilla/5.0 (Windows NT 10.0; Win64; x64) Chrome/121.0.0.0"
    screen_width := 1920
    screen_height := 1080
    webgl_vendor := "Google Inc. (NVIDIA)"
    webgl_renderer := "ANGLE (NVIDIA GeForce RTX 3060)"
    hardware_concurrency := 8
    device_memory := 8
    platform := "Win32"
    timezone := "Europe/London"
    language := "en-US"
    default_url := "https://www.google.com"
    proxy_enabled := false
    proxy_type := "http"
    proxy_host := ""
    proxy_port := 0
    proxy_username := none
    proxy_password := none
    created_at := "0"
    last_used := none }

/-- A macOS user-agent typed into the edit form of a Windows profile. -/
def uaMacEdit : EditField :=
  EditField.user_agent "Mozilla/5.0 (Macintosh; Intel Mac OS X 10_15_7) Safari/605.1.15"

/-- The form data after that single edit. -/
def editedFormExample : UpdateProfileInput :=
  applyEdits (initFormData pWinExample) [uaMacEdit]

/-- Create-modal state with the proxy enabled and `0` typed into the
port field: the local validation only checks the trimmed field is
non-blank, so this is submitted. -/
def portZeroState : CreateModalState :=
  { name := "Ad Account"
    platform := ""
    defaultUrl := "https://www.google.com"
    proxyEnabled := true
    proxyType := "http"
    proxyHost := "proxy.example.com"
    proxyPort := "0"
    proxyUsername := ""
    proxyPassword := "" }

/-- Create-modal state with a well-formed proxy port. -/
def portOkState : CreateModalState :=
  { portZeroState with proxyPort := "8080" }

/-- The proxy value the modal builds from `portOkState`. -/
def portOkProxy : ProxyConfig :=
  builtProxy "http" "proxy.example.com" "8080" "" ""

/-- The request the modal submits from `portOkState`. -/
def portOkInput : CreateProfileInput :=
  { name := "Ad Account"
    platform := none
    default_url := some "https://www.google.com"
    proxy := some portOkProxy }

/-- A well-formed bulk-create modal state. -/
def bulkStExample : BulkModalState :=
  { count := 5
    pfx := "Profile"
    platform := ""
    defaultUrl := "https://www.google.com"
    proxyEnabled := false
    proxyType := "http"
    proxyHost := ""
    proxyPort := ""
    proxyUsername := ""
    proxyPassword := "" }

/-- The argument tuple `bulkStExample` submits. -/
def bulkArgsExample : BulkCreateArgs :=
  { count := 5
    pfx := "Profile"
    platform := none
    defaultUrl := some "https://www.google.com"
    proxy := none }

/-- A fixed randomness draw for witnesses. -/
def rngExample : Rng :=
  { platformPick := 0, uaPick := 0, gpuPick := 0, resPick := 0
    coresPick := 0, memPick := 0, tzPick := 0, langPick := 0, seedBits := 42 }

/-- The fingerprint `generate (some "mac") rngExample` draws. -/
def fpMacExample : Fingerprint :=
  { user_agent := "Mozilla/5.0 (Macintosh; Intel Mac OS X 10_15_7) AppleWebKit/537.36 (KHTML, like Gecko) Chrome/121.0.0.0 Safari/537.36"
    platform := "MacIntel"
    screen_width := 1920
    screen_height := 1080
    webgl_vendor := "Apple Inc."
    webgl_renderer := "Apple M1"
    hardware_concurrency := 2
    device_memory := 2
    timezone := "America/New_York"
    language := "en-US" }

/-- A creation request pinned to macOS with no proxy. -/
def macCreateInput : CreateProfileInput :=
  { name := "Gmail Farm 3", platform := some "mac", default_url := none, proxy := none }

/-- The identity `create_profile macCreateInput "id1" rngExample` stores. -/
def macIdentityExample : Identity :=
  { id := "id1"
    fingerprint := fpMacExample
    noise_seed := 42
    proxy := none
    default_url := "https://www.google.com" }

/-- An identity used in session-manager witnesses. -/
def idyExample : Identity :=
  { id := "p1"
    fingerprint := fpMacExample
    noise_seed := 7
    proxy := none
    default_url := "https://www.facebook.com" }

/-- An empty session table. -/
def emptyTable : SessionTable := { sessions := [] }

/-- A table in which `idyExample` is live. -/
def activeTableExample : SessionTable :=
  { sessions := [{ identity_id := "p1", window_handle := 1
                   storage_partition_key := partitionKey "p1", created_at := 1 }] }

/-- A one-identity catalog used in witnesses. -/
def catalogExample : Catalog := { identities := [idyExample] }

/-- Three serialized launch attempts for the same identity. -/
def attemptsExample : List (Option String × Nat × Nat) :=
  [(none, 1, 10), (some "https://example.com", 2, 11), (none, 3, 12)]

/-! # Theorems -/

/-! ## Helper lemmas -/

/-- `handleChange` never touches the `id` field. -/
theorem applyEdit_id (f : UpdateProfileInput) (e : EditField) :
    (applyEdit f e).id = f.id := by
  cases e <;> rfl

/-- `handleChange` keeps every form field populated. -/
theorem applyEdit_complete (f : UpdateProfileInput) (e : EditField)
    (h : formComplete f = true) : formComplete (applyEdit f e) = true := by
  cases e <;> simp_all [formComplete, applyEdit]

/-- No sequence of form edits touches the `id` field. -/
theorem applyEdits_id (es : List EditField) (f : UpdateProfileInput) :
    (applyEdits f es).id = f.id := by
  induction es generalizing f with
  | nil => rfl
  | cons e rest ih =>
    show (applyEdits (applyEdit f e) rest).id = f.id
    rw [ih, applyEdit_id]

/-- No sequence of form edits loses a populated field. -/
theorem applyEdits_complete (es : List EditField) (f : UpdateProfileInput)
    (h : formComplete f = true) : formComplete (applyEdits f es) = true := by
  induction es generalizing f with
  | nil => exact h
  | cons e rest ih => exact ih _ (applyEdit_complete f e h)

/-- No live session for `id` means no table entry carries it. -/
theorem hasActive_false_iff (tbl : SessionTable) (id : String) :
    hasActive tbl id = false ↔ ∀ s ∈ tbl.sessions, s.identity_id ≠ id := by
  simp [hasActive]

/-- A launch against a live identity fails and leaves the table alone. -/
theorem launch_active_fail (tbl : SessionTable) (idy : Identity) (u : Option String)
    (wh now : Nat) (h : hasActive tbl idy.id = true) :
    launch tbl idy u wh now = (Except.error ApiError.AlreadyActive, tbl) := by
  simp [launch, h]

/-- Every launch in a serialized run against a live identity returns
`AlreadyActive` and the table never changes. -/
theorem launchSeq_active (tbl : SessionTable) (idy : Identity)
    (h : hasActive tbl idy.id = true) :
    ∀ atts, launchSeq tbl idy atts =
      (tbl, atts.map (fun _ => Except.error ApiError.AlreadyActive))
  | [] => by simp [launchSeq]
  | (u, wh, now) :: rest => by
    simp [launchSeq, launch_active_fail tbl idy u wh now h, launchSeq_active tbl idy h rest]

/-- Generation with a valid constraint always succeeds. -/
theorem generate_ok_of_valid (c : Option String) (r : Rng)
    (h : validConstraint c = true) : ∃ v, generate c r = Except.ok v := by
  cases c with
  | none => exact ⟨_, rfl⟩
  | some s =>
    simp only [validConstraint] at h
    have hm : s ∈ platformPool := by simpa using h
    simp [generate, hm]

/-- Every wrapped operation result is an unambiguous response. -/
theorem toResponse_wellFormed {T : Type} (x : Except ApiError T) :
    respWellFormed (toResponse x) := by
  cases x <;> simp [toResponse, respWellFormed]

/-! ## Claim theorems -/

/-- C1 counterexample: the profile-edit path accepts an update that
pairs a macOS user agent with a Windows platform string — typing a mac
UA into a Windows profile passes the only local validation (non-blank
name) and is submitted, yet the resulting tuple is not mutually
consistent with any platform family. -/
theorem C1_counterexample :
    editHandleSubmit editedFormExample = some editedFormExample ∧
    consistentUpdateB editedFormExample = false := by decide

/-- C1 (amended): every update accepted through the profile-edit path
replaces the Fingerprint wholesale — the submitted input is the entire
form tuple with every fingerprint field present and the profile id
preserved, and its name is non-blank — but no cross-field platform
consistency is validated on this path. -/
theorem C1_edit_wholesale_amended (p : Profile) (es : List EditField)
    (f : UpdateProfileInput)
    (h : editHandleSubmit (applyEdits (initFormData p) es) = some f) :
    f = applyEdits (initFormData p) es ∧
    f.id = p.id ∧ formComplete f = true ∧
    ∃ n, f.name = some n ∧ jsTrim n ≠ "" := by
  unfold editHandleSubmit at h
  cases hn : (applyEdits (initFormData p) es).name with
  | none => rw [hn] at h; cases h
  | some n =>
    rw [hn] at h
    simp only [] at h
    split_ifs at h with ht
    rw [Option.some_inj] at h
    subst h
    refine ⟨rfl, ?_, ?_, n, hn, ht⟩
    · rw [applyEdits_id]; rfl
    · exact applyEdits_complete _ _ rfl

/-- C1 witness: the amended statement at the concrete mac-UA edit of a
Windows profile. -/
theorem C1_edit_wholesale_amended_witness :
    editedFormExample = applyEdits (initFormData pWinExample) [uaMacEdit] ∧
    editedFormExample.id = pWinExample.id ∧ formComplete editedFormExample = true ∧
    ∃ n, editedFormExample.name = some n ∧ jsTrim n ≠ "" :=
  C1_edit_wholesale_amended pWinExample [uaMacEdit] editedFormExample (by decide)

/-- C2 counterexample: typing `0` into the proxy port field passes the
local validation (the trimmed field is non-blank), so the creation
request is submitted with an enabled proxy whose port is `0` — the
claim's "port is non-zero" fails. -/
theorem C2_counterexample :
    (createHandleCreate portZeroState).bind CreateProfileInput.proxy =
      some (builtProxy "http" "proxy.example.com" "0" "" "") ∧
    (builtProxy "http" "proxy.example.com" "0" "" "").enabled = some true ∧
    (builtProxy "http" "proxy.example.com" "0" "" "").port = some 0 := by decide

/-- C2 (amended): in every proxy submitted by the single or bulk
creation path with `enabled = true`, the host is the trimmed host field
and is non-empty, and the port is exactly `parseInt(field) || 0` — which
is non-zero only when the port field parses to a non-zero integer. -/
theorem C2_proxy_invariant_amended :
    (∀ st inp pc, createHandleCreate st = some inp → inp.proxy = some pc →
      pc.enabled = some true ∧ pc.host = some (jsTrim st.proxyHost) ∧
      jsTrim st.proxyHost ≠ "" ∧ pc.port = some (jsParseIntOr0 st.proxyPort)) ∧
    (∀ st args pc, bulkHandleCreate st = some args → args.proxy = some pc →
      pc.enabled = some true ∧ pc.host = some (jsTrim st.proxyHost) ∧
      jsTrim st.proxyHost ≠ "" ∧ pc.port = some (jsParseIntOr0 st.proxyPort)) := by
  constructor
  · intro st inp pc h hp
    unfold createHandleCreate at h
    split_ifs at h with h1 h2
    rw [Option.some_inj] at h
    subst h
    have hp2 : proxyIfEnabled st.proxyEnabled st.proxyType st.proxyHost st.proxyPort
        st.proxyUsername st.proxyPassword = some pc := hp
    unfold proxyIfEnabled at hp2
    split_ifs at hp2 with he
    rw [Option.some_inj] at hp2
    subst hp2
    refine ⟨rfl, rfl, ?_, rfl⟩
    intro hh
    exact h2 ⟨he, Or.inl hh⟩
  · intro st args pc h hp
    unfold bulkHandleCreate at h
    split_ifs at h with h1 h2 h3
    rw [Option.some_inj] at h
    subst h
    have hp2 : proxyIfEnabled st.proxyEnabled st.proxyType st.proxyHost st.proxyPort
        st.proxyUsername st.proxyPassword = some pc := hp
    unfold proxyIfEnabled at hp2
    split_ifs at hp2 with he
    rw [Option.some_inj] at hp2
    subst hp2
    refine ⟨rfl, rfl, ?_, rfl⟩
    intro hh
    exact h3 ⟨he, Or.inl hh⟩

/-- C2 witness: the amended statement at a concrete enabled proxy with
port field `8080`. -/
theorem C2_proxy_invariant_amended_witness :
    portOkProxy.enabled = some true ∧
    portOkProxy.host = some (jsTrim portOkState.proxyHost) ∧
    jsTrim portOkState.proxyHost ≠ "" ∧
    portOkProxy.port = some (jsParseIntOr0 portOkState.proxyPort) :=
  C2_proxy_invariant_amended.1 portOkState portOkInput portOkProxy (by decide) (by decide)

/-- C3: in any serialized run of launch attempts for one identity that
starts with no live session and a well-formed table, the one-session-
per-identity invariant is preserved, exactly one attempt succeeds (when
there is at least one), and every other attempt returns
`AlreadyActive`. -/
theorem C3_launch_exclusive (tbl : SessionTable) (idy : Identity)
    (atts : List (Option String × Nat × Nat))
    (hidle : hasActive tbl idy.id = false) (hinv : oneSessionPerIdentity tbl) :
    oneSessionPerIdentity (launchSeq tbl idy atts).1 ∧
    ((launchSeq tbl idy atts).2.countP (fun r => r.isOk)) = min atts.length 1 ∧
    (∀ r ∈ (launchSeq tbl idy atts).2, r.isOk = false →
      r = Except.error ApiError.AlreadyActive) := by
  cases atts with
  | nil => exact ⟨hinv, by simp [launchSeq], by simp [launchSeq]⟩
  | cons a rest =>
    obtain ⟨u, wh, now⟩ := a
    have hl : launch tbl idy u wh now =
        (Except.ok (mkSession idy.id wh now, u.getD idy.default_url),
         { sessions := mkSession idy.id wh now :: tbl.sessions }) := by
      simp [launch, hidle]
    have hact2 : hasActive
        ({ sessions := mkSession idy.id wh now :: tbl.sessions } : SessionTable)
        idy.id = true := by
      simp [hasActive, mkSession]
    have hseq : launchSeq tbl idy ((u, wh, now) :: rest) =
        ({ sessions := mkSession idy.id wh now :: tbl.sessions },
         Except.ok (mkSession idy.id wh now, u.getD idy.default_url) ::
           rest.map (fun _ => Except.error ApiError.AlreadyActive)) := by
      rw [launchSeq, hl, launchSeq_active _ idy hact2 rest]
    rw [hseq]
    refine ⟨?_, ?_, ?_⟩
    · show List.Nodup (idy.id :: tbl.sessions.map Session.identity_id)
      refine List.Nodup.cons ?_ hinv
      intro hmem
      rw [hasActive_false_iff] at hidle
      obtain ⟨s, hs, hid⟩ := List.mem_map.mp hmem
      exact hidle s hs hid
    · have h1 : (List.map (fun _ => (Except.error ApiError.AlreadyActive :
          Except ApiError (Session × String))) rest).countP (fun r => r.isOk) = 0 := by
        rw [List.countP_eq_zero]
        intro r hr
        obtain ⟨x, hx, hxx⟩ := List.mem_map.mp hr
        rw [← hxx]
        simp [Except.isOk, Except.toBool]
      rw [List.countP_cons_of_pos _ _ (by simp [Except.isOk, Except.toBool]), h1]
      simp only [List.length_cons]
      omega
    · intro r hr hfail
      simp only [List.mem_cons] at hr
      rcases hr with h | h
      · subst h; cases hfail
      · obtain ⟨x, hx, hxx⟩ := List.mem_map.mp h
        exact hxx.symm

/-- C3 witness: three attempts against an initially idle identity. -/
theorem C3_launch_exclusive_witness :
    oneSessionPerIdentity (launchSeq emptyTable idyExample attemptsExample).1 ∧
    ((launchSeq emptyTable idyExample attemptsExample).2.countP (fun r => r.isOk))
      = min attemptsExample.length 1 ∧
    (∀ r ∈ (launchSeq emptyTable idyExample attemptsExample).2, r.isOk = false →
      r = Except.error ApiError.AlreadyActive) :=
  C3_launch_exclusive emptyTable idyExample attemptsExample (by decide)
    (by simp [oneSessionPerIdentity, emptyTable])

/-- C4: while an identity has a live session, `regenerate` and `delete`
fail with `SessionActiveConflict` and the catalog — hence the stored
Fingerprint and, since partition keys are a pure function of the
untouched ids, the storage partition — is unchanged; while it is idle
(and the constraint valid), both always succeed. -/
theorem C4_regenerate_delete_guard (tbl : SessionTable) (cat : Catalog)
    (id : String) (c : Option String) (r : Rng)
    (hval : validConstraint c = true) :
    (hasActive tbl id = true →
      regenerate tbl cat id c r = (Except.error ApiError.SessionActiveConflict, cat) ∧
      delete_profile tbl cat id = (Except.error ApiError.SessionActiveConflict, cat)) ∧
    (hasActive tbl id = false →
      (regenerate tbl cat id c r).1.isOk = true ∧
      (delete_profile tbl cat id).1.isOk = true) := by
  constructor
  · intro h
    constructor
    · simp [regenerate, h]
    · simp [delete_profile, h]
  · intro h
    obtain ⟨v, hv⟩ := generate_ok_of_valid c r hval
    constructor
    · obtain ⟨fp, seed⟩ := v
      simp [regenerate, h, hv, Except.isOk, Except.toBool]
    · simp [delete_profile, h, Except.isOk, Except.toBool]

/-- C4 witness: a live identity rejects both operations and the catalog
is untouched. -/
theorem C4_regenerate_delete_guard_witness :
    regenerate activeTableExample catalogExample "p1" none rngExample
      = (Except.error ApiError.SessionActiveConflict, catalogExample) ∧
    delete_profile activeTableExample catalogExample "p1"
      = (Except.error ApiError.SessionActiveConflict, catalogExample) :=
  (C4_regenerate_delete_guard activeTableExample catalogExample "p1" none rngExample
    (by decide)).1 (by decide)

/-- C5: canvas noise is deterministic — two runtime invocations with the
identical (seed, buffer) pair yield byte-identical output whatever the
ambient process state of either invocation is (so in particular across
process restarts), because the perturbation is a pure function of the
stored seed and the buffer. -/
theorem C5_canvas_noise_deterministic (e1 e2 : ProcessEnv) (seed : Nat)
    (buf : List Nat) :
    canvas_noise_invoke e1 seed buf = canvas_noise_invoke e2 seed buf := rfl

/-- C6: the preview fingerprint generation and the generation used for
persisted identity creation are the same function — whenever creation
succeeds, the previewed fingerprint for the same platform constraint and
randomness equals the stored one, and creation only appends that
identity. -/
theorem C6_preview_create_agree (inp : CreateProfileInput) (newId : String)
    (r : Rng) (cat : Catalog) (idy : Identity) (cat2 : Catalog)
    (h : create_profile inp newId r cat = (Except.ok idy, cat2)) :
    preview_fingerprint inp.platform r = Except.ok idy.fingerprint ∧
    cat2.identities = cat.identities ++ [idy] := by
  unfold create_profile at h
  cases hg : generate inp.platform r with
  | error e => rw [hg] at h; simp at h
  | ok v =>
    obtain ⟨fp, seed⟩ := v
    rw [hg] at h
    simp only [Prod.mk.injEq, Except.ok.injEq] at h
    obtain ⟨hidy, hcat⟩ := h
    constructor
    · unfold preview_fingerprint
      rw [hg]
      simp only [Except.map]
      rw [← hidy]
    · rw [← hcat, ← hidy]

/-- C6 witness: the macOS creation at a fixed randomness stores exactly
the previewed fingerprint. -/
theorem C6_preview_create_agree_witness :
    preview_fingerprint macCreateInput.platform rngExample
      = Except.ok macIdentityExample.fingerprint ∧
    ({ identities := [macIdentityExample] } : Catalog).identities
      = ({ identities := [] } : Catalog).identities ++ [macIdentityExample] :=
  C6_preview_create_agree macCreateInput "id1" rngExample { identities := [] }
    macIdentityExample { identities := [macIdentityExample] } rfl

/-- C7: every exposed call of the modelled API layer returns an
unambiguous envelope — `success = true` comes with a payload and a null
error, `success = false` with an error and no payload — both for an
arbitrary operation result and for each modelled command. -/
theorem C7_response_unambiguous (T : Type) (x : Except ApiError T)
    (c : Option String) (r : Rng) (tbl : SessionTable) (idy : Identity)
    (su : Option String) (wh now : Nat) (cat : Catalog) (id url : String)
    (inp : CreateProfileInput) (nid : String) :
    respWellFormed (toResponse x) ∧
    respWellFormed (toResponse (preview_fingerprint c r)) ∧
    respWellFormed (toResponse (launch tbl idy su wh now).1) ∧
    respWellFormed (toResponse (navigate tbl id url).1) ∧
    respWellFormed (toResponse (closeSession tbl id).1) ∧
    respWellFormed (toResponse (regenerate tbl cat id c r).1) ∧
    respWellFormed (toResponse (delete_profile tbl cat id).1) ∧
    respWellFormed (toResponse (create_profile inp nid r cat).1) :=
  ⟨toResponse_wellFormed x, toResponse_wellFormed _, toResponse_wellFormed _,
   toResponse_wellFormed _, toResponse_wellFormed _, toResponse_wellFormed _,
   toResponse_wellFormed _, toResponse_wellFormed _⟩

/-- C8: a successful launch navigates to the supplied start URL when one
is given, and to the identity's stored default URL when no override is
supplied. -/
theorem C8_launch_url (tbl : SessionTable) (idy : Identity) (wh now : Nat) :
    (∀ u s url tbl2, launch tbl idy (some u) wh now = (Except.ok (s, url), tbl2) →
      url = u) ∧
    (∀ s url tbl2, launch tbl idy none wh now = (Except.ok (s, url), tbl2) →
      url = idy.default_url) := by
  constructor
  · intro u s url tbl2 h
    unfold launch at h
    split_ifs at h with ha
    · simp at h
    · simp only [Prod.mk.injEq, Except.ok.injEq, Option.getD_some] at h
      exact h.1.2.symm
  · intro s url tbl2 h
    unfold launch at h
    split_ifs at h with ha
    · simp at h
    · simp only [Prod.mk.injEq, Except.ok.injEq, Option.getD_none] at h
      exact h.1.2.symm

/-- C8 witness: both cases at a concrete idle identity. -/
theorem C8_launch_url_witness :
    "https://example.com" = "https://example.com" ∧
    idyExample.default_url = idyExample.default_url :=
  ⟨(C8_launch_url emptyTable idyExample 1 2).1 "https://example.com"
      (mkSession "p1" 1 2) "https://example.com"
      { sessions := [mkSession "p1" 1 2] } rfl,
   (C8_launch_url emptyTable idyExample 3 4).2
      (mkSession "p1" 3 4) idyExample.default_url
      { sessions := [mkSession "p1" 3 4] } rfl⟩

/-- C9: fingerprint generation fails with `InvalidPlatformConstraint`
exactly when the given constraint is present and outside
{windows, mac, linux}; that is its only failure mode, and any valid
input (including an absent constraint) always yields a fingerprint. -/
theorem C9_constraint_validation (c : Option String) (r : Rng) :
    (generate c r = Except.error ApiError.InvalidPlatformConstraint ↔
      validConstraint c = false) ∧
    (∀ e, generate c r = Except.error e → e = ApiError.InvalidPlatformConstraint) ∧
    (validConstraint c = true → ∃ v, generate c r = Except.ok v) := by
  refine ⟨?_, ?_, fun h => generate_ok_of_valid c r h⟩
  · cases c with
    | none => simp [generate, validConstraint]
    | some s =>
      cases hc : platformPool.contains s with
      | true => simp [generate, validConstraint, hc]
      | false => simp [generate, validConstraint, hc]
  · intro e he
    cases c with
    | none => simp [generate] at he
    | some s =>
      cases hc : platformPool.contains s with
      | true =>
        rw [generate, if_pos hc] at he
        cases he
      | false =>
        have hcc : ¬(platformPool.contains s = true) := by simpa using hc
        rw [generate, if_neg hcc] at he
        injection he with h1
        exact h1.symm

/-- C9 witness: an unsupported constraint fails with exactly
`InvalidPlatformConstraint`, a supported one succeeds. -/
theorem C9_constraint_validation_witness :
    generate (some "amiga") rngExample
      = Except.error ApiError.InvalidPlatformConstraint ∧
    ∃ v, generate (some "mac") rngExample = Except.ok v :=
  ⟨(C9_constraint_validation (some "amiga") rngExample).1.mpr (by decide),
   (C9_constraint_validation (some "mac") rngExample).2.2 (by decide)⟩

/-- C10: the bulk-create request is only issued with a count in [1,100]
and a non-empty trimmed name prefix, and any submission with a count
outside [1,100] or a blank prefix is rejected locally with no
`bulkCreateProfiles` call. -/
theorem C10_bulk_create_guard (st : BulkModalState) :
    (∀ args, bulkHandleCreate st = some args →
      1 ≤ args.count ∧ args.count ≤ 100 ∧ args.pfx = jsTrim st.pfx ∧ args.pfx ≠ "") ∧
    ((st.count < 1 ∨ 100 < st.count ∨ jsTrim st.pfx = "") →
      bulkHandleCreate st = none) := by
  constructor
  · intro args h
    unfold bulkHandleCreate at h
    split_ifs at h with h1 h2 h3
    rw [Option.some_inj] at h
    subst h
    refine ⟨?_, ?_, rfl, h2⟩
    · show (1 : Int) ≤ st.count
      omega
    · show st.count ≤ (100 : Int)
      omega
  · intro h
    unfold bulkHandleCreate
    split_ifs with h1 h2 h3
    · rfl
    · rfl
    · rfl
    · rcases h with h | h | h
      · exact absurd (Or.inl h) h1
      · exact absurd (Or.inr h) h1
      · exact absurd h h2

/-- C10 witness: a well-formed bulk submission is issued and in range. -/
theorem C10_bulk_create_guard_witness :
    1 ≤ bulkArgsExample.count ∧ bulkArgsExample.count ≤ 100 ∧
    bulkArgsExample.pfx = jsTrim bulkStExample.pfx ∧ bulkArgsExample.pfx ≠ "" :=
  (C10_bulk_create_guard bulkStExample).1 bulkArgsExample (by decide)

end IdentityForge
